import Mathlib

/-!
Shallow embedding of the survey submission pipeline
(`src/lib/supabase/submit-form.ts`) and of the result-polling loop of
the survey form component. TypeScript numbers are modelled as
rationals (`ℚ`), strings as `String`, and the Supabase table as a
`List` of records; the table queries become filter-and-sort functions
on that list. Timestamps produced by `new Date().toISOString()` are
passed in explicitly as a `now : ℚ` parameter.
-/

/-- The `FormData` interface: the raw survey input. -/
structure FormData where
  email : String
  firstName : String
  lastName : String
  age : Option ℚ
  phone : String
  preferredTimes : List String
  socialLinks : String
  jobCareer : String
  lifeAchievements : String
  dreamBuilding : String
  communitySpace : String
  coreValues : String
  qualitiesSeek : String
  dealBreakers : String
  skillsAbilities : String
  startVillage : ℚ
  spirituality : ℚ
  ambition : ℚ
  familyOrientation : ℚ
  wealthOrientation : ℚ
  teamwork : ℚ
  agency : ℚ
  preparedness : ℚ
  locationFreedom : ℚ
  existingCommunity : ℚ
  empathy : ℚ
  offGridVillage : ℚ
  nomadicTribe : ℚ
  businessStartup : ℚ
  wellnessCenter : ℚ
  spiritualCenter : ℚ
  techHub : ℚ
  startupNation : ℚ
  deriving DecidableEq

/-- The `mcResponses` object built inside `submitUserForm`: all 18 Likert
scales under their snake_case keys. -/
structure McResponses where
  start_village : ℚ
  spirituality : ℚ
  ambition : ℚ
  family_orientation : ℚ
  wealth_orientation : ℚ
  teamwork : ℚ
  agency : ℚ
  preparedness : ℚ
  location_freedom : ℚ
  existing_community : ℚ
  empathy : ℚ
  interest_off_grid : ℚ
  interest_nomadic : ℚ
  interest_business : ℚ
  interest_wellness : ℚ
  interest_spiritual : ℚ
  interest_tech_hub : ℚ
  interest_startup_nation : ℚ
  deriving DecidableEq

/-- The `freeResponses` object built inside `submitUserForm`: the eight
free-text answers under their snake_case keys. -/
structure FreeResponses where
  job_career : String
  life_achievements : String
  dream_building : String
  community_space : String
  core_values : String
  qualities_seek : String
  deal_breakers : String
  skills_abilities : String
  deriving DecidableEq

/-- The `attributeScores` object built inside `submitUserForm`:
18 named dimensions plus the two derived scalars. -/
structure AttributeScores where
  seeks_new_community : ℚ
  seeks_high_tech : ℚ
  seeks_return_to_land : ℚ
  seeks_entrepreneurship : ℚ
  seeks_spiritual_community : ℚ
  seeks_health_fitness : ℚ
  seeks_travel : ℚ
  seeks_breakaway_society : ℚ
  ambitious : ℚ
  wealth_oriented : ℚ
  family_oriented : ℚ
  teamwork_oriented : ℚ
  religious : ℚ
  high_agency : ℚ
  high_skills : ℚ
  high_empathy : ℚ
  high_location_freedom : ℚ
  high_resources : ℚ
  readiness_score : ℚ
  community_interest_avg : ℚ
  deriving DecidableEq

/-- Embedding of the `mcResponses` construction in `submitUserForm`. -/
def mcResponses (fd : FormData) : McResponses where
  start_village := fd.startVillage
  spirituality := fd.spirituality
  ambition := fd.ambition
  family_orientation := fd.familyOrientation
  wealth_orientation := fd.wealthOrientation
  teamwork := fd.teamwork
  agency := fd.agency
  preparedness := fd.preparedness
  location_freedom := fd.locationFreedom
  existing_community := fd.existingCommunity
  empathy := fd.empathy
  interest_off_grid := fd.offGridVillage
  interest_nomadic := fd.nomadicTribe
  interest_business := fd.businessStartup
  interest_wellness := fd.wellnessCenter
  interest_spiritual := fd.spiritualCenter
  interest_tech_hub := fd.techHub
  interest_startup_nation := fd.startupNation

/-- Embedding of the `freeResponses` construction in `submitUserForm`. -/
def freeResponses (fd : FormData) : FreeResponses where
  job_career := fd.jobCareer
  life_achievements := fd.lifeAchievements
  dream_building := fd.dreamBuilding
  community_space := fd.communitySpace
  core_values := fd.coreValues
  qualities_seek := fd.qualitiesSeek
  deal_breakers := fd.dealBreakers
  skills_abilities := fd.skillsAbilities

/-- Embedding of the `attributeScores` construction in `submitUserForm`:
each Likert field copied verbatim, plus the two derived means. -/
def attributeScores (fd : FormData) : AttributeScores where
  seeks_new_community := fd.startVillage
  seeks_high_tech := fd.techHub
  seeks_return_to_land := fd.offGridVillage
  seeks_entrepreneurship := fd.businessStartup
  seeks_spiritual_community := fd.spiritualCenter
  seeks_health_fitness := fd.wellnessCenter
  seeks_travel := fd.nomadicTribe
  seeks_breakaway_society := fd.startupNation
  ambitious := fd.ambition
  wealth_oriented := fd.wealthOrientation
  family_oriented := fd.familyOrientation
  teamwork_oriented := fd.teamwork
  religious := fd.spirituality
  high_agency := fd.agency
  high_skills := fd.preparedness
  high_empathy := fd.empathy
  high_location_freedom := fd.locationFreedom
  high_resources := fd.existingCommunity
  readiness_score := (fd.agency + fd.preparedness + fd.locationFreedom) / 3
  community_interest_avg :=
    (fd.offGridVillage + fd.nomadicTribe + fd.businessStartup +
     fd.wellnessCenter + fd.spiritualCenter + fd.techHub +
     fd.startupNation) / 7

/-- A Likert rating: an integer (denominator 1) in [1, 10]. -/
abbrev isLikert (x : ℚ) : Prop := 1 ≤ x ∧ x ≤ 10 ∧ x.den = 1

/-- The SurveyResponse invariant: every one of the 18 rated fields is a
Likert value. -/
abbrev SurveyInvariant (fd : FormData) : Prop :=
  isLikert fd.startVillage ∧ isLikert fd.spirituality ∧
  isLikert fd.ambition ∧ isLikert fd.familyOrientation ∧
  isLikert fd.wealthOrientation ∧ isLikert fd.teamwork ∧
  isLikert fd.agency ∧ isLikert fd.preparedness ∧
  isLikert fd.locationFreedom ∧ isLikert fd.existingCommunity ∧
  isLikert fd.empathy ∧ isLikert fd.offGridVillage ∧
  isLikert fd.nomadicTribe ∧ isLikert fd.businessStartup ∧
  isLikert fd.wellnessCenter ∧ isLikert fd.spiritualCenter ∧
  isLikert fd.techHub ∧ isLikert fd.startupNation

/-- A concrete valid response: all Likert scales at their default 5,
free-text answers filled. -/
def exFd : FormData where
  email := "a@b.co"
  firstName := "Ada"
  lastName := "L"
  age := some 30
  phone := ""
  preferredTimes := ["Morning"]
  socialLinks := ""
  jobCareer := "engineer at a co-op, many years"
  lifeAchievements := "built a bridge and a school"
  dreamBuilding := "a village in the hills somewhere"
  communitySpace := "a shared campus with workshops"
  coreValues := "integrity, freedom"
  qualitiesSeek := "curiosity and kindness in people"
  dealBreakers := "dishonesty and cruelty"
  skillsAbilities := "carpentry, cooking"
  startVillage := 5
  spirituality := 5
  ambition := 5
  familyOrientation := 5
  wealthOrientation := 5
  teamwork := 5
  agency := 5
  preparedness := 5
  locationFreedom := 5
  existingCommunity := 5
  empathy := 5
  offGridVillage := 5
  nomadicTribe := 5
  businessStartup := 5
  wellnessCenter := 5
  spiritualCenter := 5
  techHub := 5
  startupNation := 5

/-- C1: for every response satisfying the SurveyResponse invariants,
vectorization copies each of the 18 Likert fields verbatim into its
named dimension, and `readiness_score` is the mean of agency,
preparedness and location freedom while `community_interest_avg` is the
mean of the 7 community-interest ratings, with exact division and no
rounding. -/
theorem vectorize_verbatim_and_means (fd : FormData)
    (h : SurveyInvariant fd) :
    (attributeScores fd).seeks_new_community = fd.startVillage ∧
    (attributeScores fd).seeks_high_tech = fd.techHub ∧
    (attributeScores fd).seeks_return_to_land = fd.offGridVillage ∧
    (attributeScores fd).seeks_entrepreneurship = fd.businessStartup ∧
    (attributeScores fd).seeks_spiritual_community = fd.spiritualCenter ∧
    (attributeScores fd).seeks_health_fitness = fd.wellnessCenter ∧
    (attributeScores fd).seeks_travel = fd.nomadicTribe ∧
    (attributeScores fd).seeks_breakaway_society = fd.startupNation ∧
    (attributeScores fd).ambitious = fd.ambition ∧
    (attributeScores fd).wealth_oriented = fd.wealthOrientation ∧
    (attributeScores fd).family_oriented = fd.familyOrientation ∧
    (attributeScores fd).teamwork_oriented = fd.teamwork ∧
    (attributeScores fd).religious = fd.spirituality ∧
    (attributeScores fd).high_agency = fd.agency ∧
    (attributeScores fd).high_skills = fd.preparedness ∧
    (attributeScores fd).high_empathy = fd.empathy ∧
    (attributeScores fd).high_location_freedom = fd.locationFreedom ∧
    (attributeScores fd).high_resources = fd.existingCommunity ∧
    (attributeScores fd).readiness_score =
      (fd.agency + fd.preparedness + fd.locationFreedom) / 3 ∧
    (attributeScores fd).community_interest_avg =
      (fd.offGridVillage + fd.nomadicTribe + fd.businessStartup +
       fd.wellnessCenter + fd.spiritualCenter + fd.techHub +
       fd.startupNation) / 7 := by
  refine ⟨rfl, rfl, rfl, rfl, rfl, rfl, rfl, rfl, rfl, rfl, rfl, rfl,
    rfl, rfl, rfl, rfl, rfl, rfl, rfl, rfl⟩

/-- C1 witness: the theorem applied to the concrete valid response. -/
theorem vectorize_verbatim_and_means_witness :
    SurveyInvariant exFd ∧
    ((attributeScores exFd).readiness_score =
       (exFd.agency + exFd.preparedness + exFd.locationFreedom) / 3 ∧
     (attributeScores exFd).community_interest_avg =
       (exFd.offGridVillage + exFd.nomadicTribe + exFd.businessStartup +
        exFd.wellnessCenter + exFd.spiritualCenter + exFd.techHub +
        exFd.startupNation) / 7) :=
  ⟨by decide,
   ⟨(vectorize_verbatim_and_means exFd (by decide)).2.2.2.2.2.2.2.2.2.2.2.2.2.2.2.2.2.2.1,
    (vectorize_verbatim_and_means exFd (by decide)).2.2.2.2.2.2.2.2.2.2.2.2.2.2.2.2.2.2.2⟩⟩

/-- JavaScript truthiness of a string value: truthy iff non-empty. -/
def truthyString (s : String) : Bool := !(s == "")

/-- The values of the fixed `requiredFields` checklist used by
`calculateCompleteness`, in source order: contact basics plus the eight
required free-text answers. -/
def requiredValues (fd : FormData) : List String :=
  [fd.email, fd.firstName, fd.lastName, fd.jobCareer,
   fd.lifeAchievements, fd.dreamBuilding, fd.communitySpace,
   fd.coreValues, fd.qualitiesSeek, fd.dealBreakers, fd.skillsAbilities]

/-- Embedding of `calculateCompleteness`: count the truthy required
fields into `filledCount`, divide by the checklist length, scale to
100. -/
def calculateCompleteness (fd : FormData) : ℚ :=
  let requiredFields := requiredValues fd
  let filledCount : ℕ :=
    requiredFields.foldl (fun n s => if truthyString s then n + 1 else n) 0
  ((filledCount : ℚ) / (requiredFields.length : ℚ)) * 100

theorem foldl_truthy_count (l : List String) (n : ℕ) :
    l.foldl (fun n s => if truthyString s then n + 1 else n) n
      = n + l.countP truthyString := by
  induction l generalizing n with
  | nil => simp
  | cons a t ih =>
    by_cases h : truthyString a <;>
      simp [h, ih, List.countP_cons] <;> omega

theorem truthyString_eq : truthyString = fun s => decide (s ≠ "") := by
  funext s
  by_cases h : s = "" <;> simp [truthyString, h]

theorem requiredValues_length (fd : FormData) :
    (requiredValues fd).length = 11 := rfl

/-- The concrete valid response with exactly 3 of the 11 required
fields left empty. -/
def exFdMissing3 : FormData :=
  { exFd with coreValues := "", qualitiesSeek := "", dealBreakers := "" }

/-- C2: the completeness metric is the number of non-empty entries of the
fixed 11-field checklist, divided by 11, times 100; a response missing
exactly 3 of the 11 required fields scores (8/11)*100 = 800/11. -/
theorem completeness_is_nonempty_fraction :
    (∀ fd : FormData, calculateCompleteness fd =
      (((requiredValues fd).countP (fun s => decide (s ≠ ""))) : ℚ) / 11 * 100) ∧
    (requiredValues exFdMissing3).countP (fun s => decide (s ≠ "")) = 8 ∧
    calculateCompleteness exFdMissing3 = (800 : ℚ) / 11 := by
  have hgen : ∀ fd : FormData, calculateCompleteness fd =
      (((requiredValues fd).countP (fun s => decide (s ≠ ""))) : ℚ) / 11 * 100 := by
    intro fd
    simp only [calculateCompleteness]
    rw [foldl_truthy_count, truthyString_eq, requiredValues_length]
    norm_num
  have hcount :
      (requiredValues exFdMissing3).countP (fun s => decide (s ≠ "")) = 8 := by
    decide
  refine ⟨hgen, hcount, ?_⟩
  rw [hgen, hcount]
  norm_num

/-- Object.values of the `freeResponses` object, in key insertion
order. Every field of `FreeResponses` is a `String`, so the source's
`typeof val === 'string'` filter keeps all eight values, empty or not. -/
def freeValues (fr : FreeResponses) : List String :=
  [fr.job_career, fr.life_achievements, fr.dream_building,
   fr.community_space, fr.core_values, fr.qualities_seek,
   fr.deal_breakers, fr.skills_abilities]

/-- Embedding of `calculateAvgResponseLength`: mean character length of
the string-typed values — all eight fields — and 0 when there are
none. -/
def calculateAvgResponseLength (fr : FreeResponses) : ℚ :=
  let lengths := (freeValues fr).map (fun v => (v.length : ℚ))
  if lengths.length = 0 then 0 else lengths.sum / (lengths.length : ℚ)

/-- Modelled from the spec's words, for comparison with the source
function: mean length over only the non-empty free-text answers, 0 when
none is non-empty. -/
def avgLengthNonEmptySpec (fr : FreeResponses) : ℚ :=
  let lengths :=
    ((freeValues fr).filter (fun v => !(v == ""))).map (fun v => (v.length : ℚ))
  if lengths.length = 0 then 0 else lengths.sum / (lengths.length : ℚ)

/-- A response with one free-text answer of length 4 and the other
seven empty. -/
def exFrOneAnswer : FreeResponses where
  job_career := "abcd"
  life_achievements := ""
  dream_building := ""
  community_space := ""
  core_values := ""
  qualities_seek := ""
  deal_breakers := ""
  skills_abilities := ""

/-- C3 counterexample: the source function divides by all eight fields
(empty strings included), giving 4/8 = 1/2 here, while the claimed
non-empty-only mean is 4. -/
theorem avg_length_excludes_empty_false :
    calculateAvgResponseLength exFrOneAnswer = (1 : ℚ) / 2 ∧
    avgLengthNonEmptySpec exFrOneAnswer = 4 ∧
    ((1 : ℚ) / 2) ≠ 4 := by
  have hl : "abcd".length = 4 := rfl
  have hb1 : (("abcd" : String) == "") = false := rfl
  have hne : ("abcd" : String) ≠ "" := by decide
  refine ⟨?_, ?_, by norm_num⟩
  · norm_num [calculateAvgResponseLength, freeValues, exFrOneAnswer, hl]
  · norm_num [avgLengthNonEmptySpec, freeValues, exFrOneAnswer, hl, hb1, hne]

/-- C3 amended: response_length_avg is the mean character length of all
eight free-text answer fields, empty strings included (the code filters
by being a string, which every field is, not by non-emptiness); the
denominator is always 8, so the zero guard for an empty list is
unreachable for this record shape. -/
theorem avg_length_counts_empty (fr : FreeResponses) :
    calculateAvgResponseLength fr =
      ((freeValues fr).map (fun v => (v.length : ℚ))).sum / 8 := by
  simp [calculateAvgResponseLength, freeValues]

/-- Embedding of the `consistencyChecks` array: three alignment checks,
each passing when the two paired Likert values differ by at most 3. -/
def consistencyChecks (mc : McResponses) : List Bool :=
  [decide (|mc.start_village - mc.interest_off_grid| ≤ 3),
   decide (|mc.spirituality - mc.interest_spiritual| ≤ 3),
   decide (|mc.ambition - mc.interest_business| ≤ 3)]

/-- Embedding of `calculateConsistency`: fraction of passed checks,
scaled to 100. -/
def calculateConsistency (mc : McResponses) : ℚ :=
  let checks := consistencyChecks mc
  let passedChecks := (checks.filter (fun check => check)).length
  ((passedChecks : ℚ) / (checks.length : ℚ)) * 100

/-- C4: consistency_score is (checks passed / 3) * 100 where the three
checks are the fixed pairs start_village vs off-grid interest,
spirituality vs spiritual-center interest, ambition vs business
interest, each passing iff the absolute difference is at most 3; the
score always lies in [0, 100]. -/
theorem consistency_formula_and_bounds (mc : McResponses) :
    calculateConsistency mc =
      (((if |mc.start_village - mc.interest_off_grid| ≤ 3 then (1 : ℚ) else 0) +
        (if |mc.spirituality - mc.interest_spiritual| ≤ 3 then (1 : ℚ) else 0) +
        (if |mc.ambition - mc.interest_business| ≤ 3 then (1 : ℚ) else 0)) / 3) * 100 ∧
    0 ≤ calculateConsistency mc ∧ calculateConsistency mc ≤ 100 := by
  by_cases h1 : |mc.start_village - mc.interest_off_grid| ≤ 3 <;>
  by_cases h2 : |mc.spirituality - mc.interest_spiritual| ≤ 3 <;>
  by_cases h3 : |mc.ambition - mc.interest_business| ≤ 3 <;>
  exact ⟨by norm_num [calculateConsistency, consistencyChecks, h1, h2, h3],
    by norm_num [calculateConsistency, consistencyChecks, h1, h2, h3],
    by norm_num [calculateConsistency, consistencyChecks, h1, h2, h3]⟩

/-- Outcome of one poll read (`getUserById` plus the match-field
check): the stored record carries a `user_matches` envelope, it does
not, or the read threw. -/
inductive PollResult
  | matched
  | noMatch
  | error
  deriving DecidableEq

/-- How a polling run can end. -/
inductive PollOutcome
  | MATCHED
  | TIMED_OUT
  | ERRORED
  deriving DecidableEq

/-- The final state of a polling run: its outcome, how many reads of
the stored record were issued, and whether the catch handler logged an
error. -/
structure PollEnd where
  outcome : PollOutcome
  reads : ℕ
  loggedError : Bool
  deriving DecidableEq

/-- Constant `maxAttempts` of the polling effect; the source comment reads
"20 attempts * 3 seconds = 1 minute max". -/
def maxAttempts : ℕ := 20

/-- Constant `pollInterval` of the polling effect, in milliseconds. -/
def pollInterval : ℕ := 3000

/-- Embedding of the `checkForMatches` loop of the polling effect.
`stream i` is what the read issued with poll counter `i` observes.
Branch order follows the source: the match check first, then the
`pollAttempts >= maxAttempts` timeout check, else the counter is
incremented and the effect schedules the next poll; a thrown read is
caught, logged, and ends polling. -/
def checkForMatches (stream : ℕ → PollResult) (pollAttempts : ℕ) : PollEnd :=
  match stream pollAttempts with
  | .error => ⟨.ERRORED, pollAttempts + 1, true⟩
  | .matched => ⟨.MATCHED, pollAttempts + 1, false⟩
  | .noMatch =>
    if h : maxAttempts ≤ pollAttempts then ⟨.TIMED_OUT, pollAttempts + 1, false⟩
    else checkForMatches stream (pollAttempts + 1)
termination_by maxAttempts + 1 - pollAttempts
decreasing_by
  simp_wf
  simp only [maxAttempts] at *
  omega

/-- A full polling run: the counter starts at 0. -/
def runPoll (stream : ℕ → PollResult) : PollEnd := checkForMatches stream 0

/-- C5: on a record whose match envelope never appears (and no read
errors), polling ends TIMED_OUT only after issuing maxAttempts + 1 = 21
reads — one more than the ceiling of 20 that the claim and the
source's own "20 attempts * 3 seconds = 1 minute max" comment allow;
the interval is the fixed 3000 ms and a present envelope ends polling
MATCHED at once. -/
theorem polling_timeout_after_21_reads :
    runPoll (fun _ => PollResult.noMatch) =
      ⟨PollOutcome.TIMED_OUT, maxAttempts + 1, false⟩ ∧
    maxAttempts = 20 ∧ pollInterval = 3000 ∧ 20 < maxAttempts + 1 ∧
    runPoll (fun _ => PollResult.matched) = ⟨PollOutcome.MATCHED, 1, false⟩ := by
  refine ⟨?_, rfl, rfl, by decide, ?_⟩
  · simp [runPoll, checkForMatches, maxAttempts]
  · simp [runPoll, checkForMatches]

/-- C7: a persistence error raised while reading the record during
polling is logged and ends the run at that read, with the ERRORED
outcome, which is distinct from the TIMED_OUT outcome. -/
theorem polling_error_ends_degraded (stream : ℕ → PollResult)
    (i : ℕ) (h : stream i = PollResult.error) :
    checkForMatches stream i = ⟨PollOutcome.ERRORED, i + 1, true⟩ ∧
    PollOutcome.ERRORED ≠ PollOutcome.TIMED_OUT := by
  refine ⟨?_, by decide⟩
  rw [checkForMatches, h]

/-- C7 witness: the theorem applied to a run whose first read throws. -/
theorem polling_error_ends_degraded_witness :
    (fun _ : ℕ => PollResult.error) 0 = PollResult.error ∧
    (checkForMatches (fun _ => PollResult.error) 0 =
       ⟨PollOutcome.ERRORED, 1, true⟩ ∧
     PollOutcome.ERRORED ≠ PollOutcome.TIMED_OUT) :=
  ⟨rfl, polling_error_ends_degraded (fun _ => PollResult.error) 0 rfl⟩

/-- The `formResponses` object: preferred times, all responses, survey
version, submission time. The source spreads `mcResponses` and
`freeResponses` flat into the object; here they sit in nested fields. -/
structure FormResponses where
  preferred_times : List String
  mc : McResponses
  free : FreeResponses
  survey_version : ℕ
  submitted_at : ℚ
  deriving DecidableEq

/-- The `quality_metrics` object of the row. -/
structure QualityMetrics where
  completeness : ℚ
  response_length_avg : ℚ
  consistency_score : ℚ
  deriving DecidableEq

/-- A row of the `test_users_pool_1` table, shaped as the `userData`
object that `submitUserForm` inserts. -/
structure UserRecord where
  email : String
  first_name : String
  last_name : String
  age : Option ℚ
  phone : String
  social_links : String
  form_responses : FormResponses
  mc_responses : McResponses
  free_responses : FreeResponses
  attribute_scores : AttributeScores
  quality_metrics : QualityMetrics
  quality_status : String
  should_match : Bool
  status : String
  is_synthetic : Bool
  created_at : ℚ
  updated_at : ℚ
  deriving DecidableEq

/-- Embedding of the `formResponses` construction in `submitUserForm`. -/
def formResponses (fd : FormData) (now : ℚ) : FormResponses where
  preferred_times := fd.preferredTimes
  mc := mcResponses fd
  free := freeResponses fd
  survey_version := 2
  submitted_at := now

/-- Embedding of the `userData` record built by `submitUserForm`: the
complete row handed to the insert, with attribute scores and quality
metrics computed and the status flags set. `now` stands for
`new Date().toISOString()`. -/
def userData (fd : FormData) (now : ℚ) : UserRecord where
  email := fd.email
  first_name := fd.firstName
  last_name := fd.lastName
  age := fd.age
  phone := fd.phone
  social_links := fd.socialLinks
  form_responses := formResponses fd now
  mc_responses := mcResponses fd
  free_responses := freeResponses fd
  attribute_scores := attributeScores fd
  quality_metrics :=
    { completeness := calculateCompleteness fd
      response_length_avg := calculateAvgResponseLength (freeResponses fd)
      consistency_score := calculateConsistency (mcResponses fd) }
  quality_status := "pending"
  should_match := false
  status := "new"
  is_synthetic := false
  created_at := now
  updated_at := now

/-- A submission with an out-of-range Likert value: startVillage 11. -/
def exFdBad : FormData := { exFd with startVillage := 11 }

/-- C6 counterexample: the submission pipeline performs no Likert
validation: with startVillage = 11 — outside [1,10], so the Likert
invariant fails — scoring still runs and the assembled row carries the
raw value 11 in its attribute scores, instead of the operation failing
with a ValidationError before scoring and persistence. -/
theorem no_likert_validation :
    ¬ isLikert exFdBad.startVillage ∧
    (userData exFdBad 0).attribute_scores.seeks_new_community = 11 ∧
    (userData exFdBad 0).quality_metrics.completeness =
      calculateCompleteness exFdBad ∧
    (userData exFdBad 0).quality_status = "pending" := by
  refine ⟨?_, rfl, rfl, rfl⟩
  intro h
  have h2 := h.2.1
  norm_num [exFdBad, exFd] at h2

/-- C6 amended: `submitUserForm` validates nothing about the Likert
fields: for every submission, in or out of range, it computes the
attribute scores and the three quality metrics and assembles the row
for insertion; the code has no ValidationError path before
persistence. -/
theorem submit_always_scores (fd : FormData) (now : ℚ) :
    (userData fd now).attribute_scores = attributeScores fd ∧
    (userData fd now).quality_metrics.completeness = calculateCompleteness fd ∧
    (userData fd now).quality_metrics.response_length_avg =
      calculateAvgResponseLength (freeResponses fd) ∧
    (userData fd now).quality_metrics.consistency_score =
      calculateConsistency (mcResponses fd) :=
  ⟨rfl, rfl, rfl, rfl⟩

/-- C8: vectorization and the three quality-metric functions are
deterministic: called twice on identical responses they yield
identical outputs; none of them reads any hidden state. -/
theorem scoring_deterministic (fd fd' : FormData) (h : fd = fd') :
    attributeScores fd = attributeScores fd' ∧
    calculateCompleteness fd = calculateCompleteness fd' ∧
    calculateAvgResponseLength (freeResponses fd) =
      calculateAvgResponseLength (freeResponses fd') ∧
    calculateConsistency (mcResponses fd) =
      calculateConsistency (mcResponses fd') := by
  subst h
  exact ⟨rfl, rfl, rfl, rfl⟩

/-- C8 witness: the theorem applied to the concrete response. -/
theorem scoring_deterministic_witness :
    exFd = exFd ∧
    (attributeScores exFd = attributeScores exFd ∧
     calculateCompleteness exFd = calculateCompleteness exFd ∧
     calculateAvgResponseLength (freeResponses exFd) =
       calculateAvgResponseLength (freeResponses exFd) ∧
     calculateConsistency (mcResponses exFd) =
       calculateConsistency (mcResponses exFd)) :=
  ⟨rfl, scoring_deterministic exFd exFd rfl⟩

/-- Arrival order as served by `order('created_at', ascending: false)`:
descending `created_at`. -/
abbrev createdDesc (a b : UserRecord) : Prop := b.created_at ≤ a.created_at

instance : IsTotal UserRecord createdDesc :=
  ⟨fun a b => le_total b.created_at a.created_at⟩

instance : IsTrans UserRecord createdDesc :=
  ⟨fun _ _ _ hab hbc => le_trans hbc hab⟩

/-- Embedding of `getMatchableUsers`: rows with `should_match = true`
and `quality_status = 'approved'`, ordered by `created_at` descending. -/
def getMatchableUsers (db : List UserRecord) : List UserRecord :=
  List.insertionSort createdDesc
    (db.filter (fun r => r.should_match && (r.quality_status == "approved")))

/-- Embedding of `getAllRealUsers`: rows with `is_synthetic = false`,
ordered by `created_at` descending. -/
def getAllRealUsers (db : List UserRecord) : List UserRecord :=
  List.insertionSort createdDesc (db.filter (fun r => !r.is_synthetic))

/-- An approved, matchable row stored at time `t`. -/
def approvedUser (t : ℚ) : UserRecord :=
  { userData exFd t with should_match := true, quality_status := "approved" }

/-- C9 counterexample: with an earlier (created_at 1) and a later
(created_at 2) matchable row in the table, `getMatchableUsers` returns
the later row first — descending `created_at`, not the claimed
earliest-first (ascending created_at) arrival order. -/
theorem pool_order_ascending_false :
    (getMatchableUsers [approvedUser 1, approvedUser 2]).map
        UserRecord.created_at = [2, 1] ∧
    ([(2 : ℚ), 1] ≠ [(1 : ℚ), 2]) := by
  constructor
  · simp [getMatchableUsers, approvedUser, userData, List.insertionSort,
      List.orderedInsert, createdDesc]
  · intro h
    have h1 := List.head_eq_of_cons_eq h
    norm_num at h1

/-- C9 amended: the candidate-pool queries return stored profiles
ordered by arrival time descending (latest first): the results of both
`getMatchableUsers` and `getAllRealUsers` are sorted by non-increasing
`created_at`. -/
theorem pool_order_descending (db : List UserRecord) :
    (getMatchableUsers db).Sorted createdDesc ∧
    (getAllRealUsers db).Sorted createdDesc :=
  ⟨List.sorted_insertionSort createdDesc _, List.sorted_insertionSort createdDesc _⟩

/-- C10: every row persisted by form submission starts with
quality_status 'pending', should_match false and is_synthetic false,
so a freshly submitted user is never returned by `getMatchableUsers`
(which keeps only rows with should_match true and quality_status
'approved'), whatever the table contains. -/
theorem fresh_user_not_matchable (fd : FormData) (now : ℚ)
    (db : List UserRecord) :
    (userData fd now).quality_status = "pending" ∧
    (userData fd now).should_match = false ∧
    (userData fd now).is_synthetic = false ∧
    userData fd now ∉ getMatchableUsers db := by
  refine ⟨rfl, rfl, rfl, fun hmem => ?_⟩
  rw [getMatchableUsers, List.mem_insertionSort] at hmem
  have hpred := (List.mem_filter.mp hmem).2
  simp [userData] at hpred
